import Mathlib

/-!
# Verification of the cfobot data-normalization and financial-metric pipeline

Shallow embedding of the core of the `cfobot` repository
(`cfobot/data_loader.py`, `cfobot/processing.py`, `cfobot/validators.py`,
`cfobot/constants.py`) together with theorems settling the specification
claims about month resolution, sheet validation, budget execution,
financial ratios and the balance-equation validator.

Modelling conventions:
* Python floats are modelled as rationals (`ℚ`); the arithmetic the code
  performs never divides by zero (each division is guarded), so no
  NaN/infinity value can arise and the rational model is exact up to
  floating-point rounding, which none of the claims depends on.
* `pandas` data frames are modelled as explicit lists of typed rows plus,
  where a claim depends on it, the list of column labels.
* All string processing is re-implemented over `List Char` by structural
  recursion so that every definition evaluates by kernel reduction.
-/

namespace Cfobot

/-! ## Character-level normalization (data_loader._strip_accents and str.upper) -/

/-- Python `str.upper` restricted to the characters the pipeline can meet:
ASCII letters plus the accented Spanish letters. -/
def upperChar (c : Char) : Char :=
  match c with
  | 'á' => 'Á' | 'é' => 'É' | 'í' => 'Í' | 'ó' => 'Ó' | 'ú' => 'Ú'
  | 'ü' => 'Ü' | 'ñ' => 'Ñ'
  | other => other.toUpper

/-- `data_loader._strip_accents`: NFD-normalize and drop combining marks.
Modelled character-wise on the accented Latin letters that occur in
Spanish month labels (the identity on every other character). -/
def stripAccentChar (c : Char) : Char :=
  match c with
  | 'Á' => 'A' | 'É' => 'E' | 'Í' => 'I' | 'Ó' => 'O' | 'Ú' => 'U'
  | 'Ü' => 'U' | 'Ñ' => 'N'
  | 'á' => 'a' | 'é' => 'e' | 'í' => 'i' | 'ó' => 'o' | 'ú' => 'u'
  | 'ü' => 'u' | 'ñ' => 'n'
  | other => other

/-- `_strip_accents(text.upper())` on the character list of a label. -/
def normalizeChars (l : List Char) : List Char :=
  (l.map upperChar).map stripAccentChar

def stripAccents (s : String) : String :=
  String.mk (s.data.map stripAccentChar)

/-! ## Tokenization (data_loader._extract_month_tokens) -/

/-- Python `cleaned = upper.replace("DE", " ")`: replace every (non-overlapping,
left-to-right) occurrence of the two-character substring `DE` by a space. -/
def replaceDE : List Char → List Char
  | 'D' :: 'E' :: rest => ' ' :: replaceDE rest
  | c :: rest => c :: replaceDE rest
  | [] => []

/-- Python `str.split()` (no separator): maximal runs of non-whitespace. -/
def splitWsGo : List Char → List Char → List (List Char)
  | [], acc => if acc.isEmpty then [] else [acc.reverse]
  | c :: rest, acc =>
    if c.isWhitespace then
      if acc.isEmpty then splitWsGo rest [] else acc.reverse :: splitWsGo rest []
    else splitWsGo rest (c :: acc)

def splitWs (l : List Char) : List (List Char) := splitWsGo l []

/-- Python `str.isalpha` (restricted to the ASCII range that remains after
accent stripping): nonempty and all alphabetic. -/
def isAlphaTok (t : String) : Bool :=
  !t.data.isEmpty && t.data.all Char.isAlpha

/-- `data_loader._extract_month_tokens`. -/
def extractMonthTokens (text : String) : List String :=
  let cleaned := replaceDE (normalizeChars text.data)
  ((splitWs cleaned).map String.mk).filter isAlphaTok

/-! ## Month aliases (data_loader.MONTH_ALIASES / ALIAS_TO_MONTH) -/

def MONTH_ALIASES : List (String × List String) :=
  [("ENERO", ["ENERO", "ENE"]),
   ("FEBRERO", ["FEBRERO", "FEB"]),
   ("MARZO", ["MARZO", "MAR"]),
   ("ABRIL", ["ABRIL", "ABR"]),
   ("MAYO", ["MAYO", "MAY"]),
   ("JUNIO", ["JUNIO", "JUN"]),
   ("JULIO", ["JULIO", "JUL"]),
   ("AGOSTO", ["AGOSTO", "AGO"]),
   ("SEPTIEMBRE", ["SEPTIEMBRE", "SEP"]),
   ("OCTUBRE", ["OCTUBRE", "OCT"]),
   ("NOVIEMBRE", ["NOVIEMBRE", "NOV"]),
   ("DICIEMBRE", ["DICIEMBRE", "DIC"])]

/-- `ALIAS_TO_MONTH.get(token)`. -/
def aliasToMonth (tok : String) : Option String :=
  MONTH_ALIASES.findSome? (fun p => if p.2.contains tok then some p.1 else none)

/-- `data_loader._resolve_month`: first token (left to right) that is a
known alias wins. -/
def resolveMonth (label : String) : Option String :=
  (extractMonthTokens label).findSome? aliasToMonth

/-- The single-quote character (codepoint 39), used in the diagnostic
messages of `data_loader`. -/
def squote : String := String.mk [Char.ofNat 39]

/-- `config.DEFAULT_MONTH_ORDER`. -/
def MONTH_ORDER : List String :=
  ["ENERO", "FEBRERO", "MARZO", "ABRIL", "MAYO", "JUNIO", "JULIO",
   "AGOSTO", "SEPTIEMBRE", "OCTUBRE", "NOVIEMBRE", "DICIEMBRE"]

/-! ## Substring search (Python `in` on strings, used by the caratula scan
and by the current-month data-row scans) -/

def isPrefixChars : List Char → List Char → Bool
  | [], _ => true
  | _ :: _, [] => false
  | p :: ps, c :: cs => p == c && isPrefixChars ps cs

def containsChars (hay pat : List Char) : Bool :=
  match hay with
  | [] => pat.isEmpty
  | _ :: rest => isPrefixChars pat hay || containsChars rest pat

/-- Python `pat in hay` for strings. -/
def containsSub (hay pat : String) : Bool := containsChars hay.data pat.data

/-! ## Month detection (data_loader) -/

/-- The sources of evidence `detect_current_month` consults besides the
filename: the workbook sheet names and, when it can be read, the CARATULA
sheet.  The cover sheet is modelled as its grid of stringified cell values,
in column-major layout (`for col in df.columns: for idx, val in df[col]`);
`none` cells are pandas NA values, a `none` grid models a missing or
unreadable CARATULA sheet (the `except` branch of
`_detect_month_from_caratula`). -/
structure Workbook where
  sheetNames : List String
  caratula : Option (List (List (Option String)))

/-- `data_loader._detect_month_from_sheet_names`.  The source collects the
resolvable sheet-name months that lie in the month order, then takes the
last element of `sorted(set(detected), key=month_index)`; filtering the
chronological order by membership in the detected list produces exactly
that sorted, de-duplicated list. -/
def detectMonthFromSheetNames (sheetNames monthOrder : List String) : Option String :=
  let detected := sheetNames.filterMap (fun s =>
    match resolveMonth s with
    | some m => if monthOrder.contains m then some m else none
    | none => none)
  (monthOrder.filter (fun m => detected.contains m)).getLast?

/-- `data_loader._detect_month_from_caratula`: first cell, in column-major
row-first order, whose text contains a month name; within one cell the
month order decides which name is reported. -/
def detectMonthFromCaratula (wb : Workbook) (monthOrder : List String) : Option String :=
  match wb.caratula with
  | none => none
  | some cols =>
    cols.findSome? (fun col =>
      col.findSome? (fun cell =>
        match cell with
        | none => none
        | some v => monthOrder.find? (fun m => containsSub (String.mk (v.data.map upperChar)) m)))

/-- `data_loader._previous_month`; `none` models the `ValueError` raised
when the month is not in the configured order. -/
def previousMonth (month : String) (monthOrder : List String) : Option String :=
  match monthOrder.indexOf? month with
  | none => none
  | some i => if i > 0 then monthOrder[i - 1]? else monthOrder.getLast?

/-- The evidence-gathering part of `data_loader.detect_current_month`
(lines 140-148): filename first; only when that fails and a workbook is
available, sheet names; only when that also fails, the cover sheet. -/
def detectEvidence (fileName : String) (wb : Option Workbook) (monthOrder : List String) :
    Option String :=
  match resolveMonth fileName with
  | some m => some m
  | none =>
    match wb with
    | none => none
    | some w =>
      match detectMonthFromSheetNames w.sheetNames monthOrder with
      | some m => some m
      | none => detectMonthFromCaratula w monthOrder

/-- The fixed English-to-Spanish table of `detect_current_month`. -/
def MONTH_MAPPING : List (String × String) :=
  [("JANUARY", "ENERO"), ("FEBRUARY", "FEBRERO"), ("MARCH", "MARZO"),
   ("APRIL", "ABRIL"), ("MAY", "MAYO"), ("JUNE", "JUNIO"),
   ("JULY", "JULIO"), ("AUGUST", "AGOSTO"), ("SEPTEMBER", "SEPTIEMBRE"),
   ("OCTOBER", "OCTUBRE"), ("NOVEMBER", "NOVIEMBRE"), ("DECEMBER", "DICIEMBRE")]

/-- `month_mapping.get(current_system_month, current_system_month)`. -/
def toSpanish (m : String) : String :=
  ((MONTH_MAPPING.find? (fun p => p.1 == m)).map Prod.snd).getD m

/-- `data_loader.detect_current_month`.  The system clock is an explicit
argument: `systemMonthEn` is `datetime.now().strftime("%B").upper()`.
`Except.error` models the raised `ValueError`s. -/
def detectCurrentMonth (fileName : String) (wb : Option Workbook)
    (monthOrder : List String) (systemMonthEn : String) : Except String String :=
  match detectEvidence fileName wb monthOrder with
  | none => Except.error "Could not determine report month from filename or workbook"
  | some detected =>
    if detected == toSpanish systemMonthEn then
      match previousMonth detected monthOrder with
      | some p => Except.ok p
      | none =>
        Except.error ("Month " ++ squote ++ detected ++ squote ++
          " is not in configured month order")
    else
      Except.ok detected

/-! ## Ledger current-month column selection (data_loader._normalize_eri) -/

/-- The state of the ERI frame at the point of column selection
(`_normalize_eri`, lines 244-263): the column labels after the positional
renaming of line 231 and the stringified cell rows. -/
structure EriRaw where
  cols : List String
  cellRows : List (List String)

/-- Current-month column selection from `_normalize_eri` (lines 244-263).

First step: the first chronologically sorted month column whose header
resolves to the current month.  Second step, as written in the source:
`df_eri.iloc[row_idx, col]` where `col` ranges over the column *labels* —
pandas `.iloc` is purely positional and raises `ValueError` on a label, so
whenever this loop body runs (at least one column and at least one row)
the function raises instead of scanning; the embedding makes that explicit.
Third step (reached only when the frame has no data rows, so the scanning
loop body never executes): the chronologically last month column. -/
def pickCurrentMonthCol (frame : EriRaw) (monthColsSorted : List String)
    (currentMonth : String) : Except String String :=
  match monthColsSorted.find? (fun c => resolveMonth c == some currentMonth) with
  | some c => Except.ok c
  | none =>
    if frame.cols.length > 0 && frame.cellRows.length > 0 then
      Except.error "Location based indexing can only have integer indexers"
    else
      match monthColsSorted.getLast? with
      | some c => Except.ok c
      | none => Except.error "No month columns found in INFORME-ERI sheet"

/-- What the selection's second step was intended to do, per its own source
comment (`# If not found by column name, look for the column with current
month in the data`) and the parallel, correctly indexed month-column scan
of lines 215-221: the first column whose first three data rows contain a
cell mentioning the current month. -/
def pickCurrentMonthColIntended (frame : EriRaw) (monthColsSorted : List String)
    (currentMonth : String) : Except String String :=
  match monthColsSorted.find? (fun c => resolveMonth c == some currentMonth) with
  | some c => Except.ok c
  | none =>
    let hit := (frame.cols.enum.find? (fun p =>
      ((frame.cellRows.take 3).map (fun row => row.getD p.1 "")).any
        (fun cell => containsSub (String.mk (cell.data.map upperChar)) currentMonth))).map Prod.snd
    match hit with
    | some c => Except.ok c
    | none =>
      match monthColsSorted.getLast? with
      | some c => Except.ok c
      | none => Except.error "No month columns found in INFORME-ERI sheet"

/-! ## Required-sheet validation (data_loader.load_financial_data, lines 376-401) -/

def requiredFixedSheets : List String := ["INFORME-ERI", "ESTADO RESULTADO", "CARATULA"]

/-- `", ".join(names)`. -/
def joinComma : List String → String
  | [] => ""
  | [s] => s
  | s :: rest => s ++ ", " ++ joinComma rest

/-- The balance-sheet search of `load_financial_data` (lines 380-384):
the first sheet whose name starts with `BALANCE ` and resolves to the
current month. -/
def findBalanceSheet (sheetNames : List String) (currentMonth : String) : Option String :=
  sheetNames.find? (fun s =>
    isPrefixChars "BALANCE ".data s.data && (resolveMonth s == some currentMonth))

/-- The cross-sheet validation of `load_financial_data` (lines 376-401),
performed after month detection and before any sheet is read or
normalized.  `Except.error` carries the exact diagnostic message the code
raises. -/
def validateRequiredSheets (sheetNames : List String) (currentMonth : String) :
    Except String String :=
  match findBalanceSheet sheetNames currentMonth with
  | none =>
    Except.error ("Could not find balance sheet for month " ++ squote ++ currentMonth ++
      squote ++ ". Available sheets: " ++ joinComma sheetNames)
  | some balanceSheet =>
    let required := requiredFixedSheets ++ [balanceSheet]
    let missing := required.filter (fun s => !sheetNames.contains s)
    if missing.isEmpty then
      Except.ok balanceSheet
    else
      Except.error ("Required sheets missing: " ++ joinComma missing ++
        ". Available sheets: " ++ joinComma sheetNames)

/-! ## Expense categorization and budget summary (processing.py) -/

/-- One row of the normalized ERI ledger, restricted to what the budget
computation reads: the account code, the display name and the value in the
current-month column. -/
structure EriRow where
  codigo : String
  displayName : String
  current : ℚ

/-- `re.match` of `^XY[0-9]{4,}` against a code: the first two characters
are `X` `Y` and they are followed by at least four digits. -/
def matchesCodeStart (x y : Char) (s : String) : Bool :=
  match s.data with
  | a :: b :: rest => a == x && b == y && (rest.take 4).length == 4 && (rest.take 4).all Char.isDigit
  | _ => false

/-- `constants.ADMIN_EXPENSES_PATTERN = r"^51[0-9]{4,}"`. -/
def matchesAdminCode (s : String) : Bool := matchesCodeStart '5' '1' s

/-- `constants.OTHER_EXPENSES_PATTERN = r"^53[0-9]{4,}"`. -/
def matchesOtherCode (s : String) : Bool := matchesCodeStart '5' '3' s

/-- `constants.SALES_COSTS_PATTERN = r"^61[0-9]{4,}"`. -/
def matchesSalesCode (s : String) : Bool := matchesCodeStart '6' '1' s

/-- `constants.PRODUCTION_COSTS_PATTERN = r"^(72|73)[0-9]{4,}"`. -/
def matchesProdCode (s : String) : Bool :=
  matchesCodeStart '7' '2' s || matchesCodeStart '7' '3' s

/-- Case-insensitive substring containment (`str.contains(..., case=False)`). -/
def containsCaseless (hay pat : String) : Bool :=
  containsChars (hay.data.map upperChar) pat.data

/-- `SALARY_PATTERNS = ["SUELDO", "SALARIO"]` joined by `|`. -/
def matchesSalaryName (s : String) : Bool :=
  containsCaseless s "SUELDO" || containsCaseless s "SALARIO"

/-- `SEVERANCE_PATTERNS = ["CESANTIA"]`. -/
def matchesSeveranceName (s : String) : Bool := containsCaseless s "CESANTIA"

def maskAdmin (r : EriRow) : Bool := matchesAdminCode r.codigo
def maskOther (r : EriRow) : Bool := matchesOtherCode r.codigo
def maskSales (r : EriRow) : Bool := matchesSalesCode r.codigo
def maskProd (r : EriRow) : Bool := matchesProdCode r.codigo

/-- `sueldos_mask = base_masks["gastos_admin"] & Display Name contains salary`. -/
def maskSueldos (r : EriRow) : Bool := maskAdmin r && matchesSalaryName r.displayName

/-- `cesantias_mask = base_masks["gastos_admin"] & Display Name contains severance`. -/
def maskCesantias (r : EriRow) : Bool := maskAdmin r && matchesSeveranceName r.displayName

/-- `abs(float(data.eri.loc[mask, current_col].sum()))`. -/
def bucketTotal (rows : List EriRow) (mask : EriRow → Bool) : ℚ :=
  |((rows.filter mask).map EriRow.current).sum|

/-- The four primary bucket values of `processing._categorize_expenses`. -/
structure GastosValues where
  gastosAdmin : ℚ
  gastosOtros : ℚ
  costosVenta : ℚ
  costosProd : ℚ

def categorizeBase (rows : List EriRow) : GastosValues :=
  { gastosAdmin := bucketTotal rows maskAdmin
    gastosOtros := bucketTotal rows maskOther
    costosVenta := bucketTotal rows maskSales
    costosProd := bucketTotal rows maskProd }

/-- `actual_total_gastos = sum(gastos_values.values())` in
`processing.compute_budget_execution`. -/
def actualTotalGastos (rows : List EriRow) : ℚ :=
  (categorizeBase rows).gastosAdmin + (categorizeBase rows).gastosOtros +
    (categorizeBase rows).costosVenta + (categorizeBase rows).costosProd

/-- `config.BudgetConfig`. -/
structure Budgets where
  ingresosMensual : ℚ
  gastosMensual : ℚ

/-- One row of the budget-execution summary table
(`Categoría`, `Actual <month>`, `Presupuesto Mensual`, `% Ejecutado`). -/
structure SummaryRow where
  categoria : String
  actual : ℚ
  presupuesto : ℚ
  pctEjecutado : ℚ

/-- `processing._build_budget_summary`. -/
def buildBudgetSummary (budgets : Budgets) (actualIngresos actualGastos : ℚ)
    (g : GastosValues) : List SummaryRow :=
  let ejecutadoIngresosPct :=
    if budgets.ingresosMensual > 0 then actualIngresos / budgets.ingresosMensual * 100 else 0
  let ejecutadoGastosPct :=
    if budgets.gastosMensual > 0 then actualGastos / budgets.gastosMensual * 100 else 0
  [⟨"Ingresos", actualIngresos, budgets.ingresosMensual, ejecutadoIngresosPct⟩,
   ⟨"Gastos Totales", actualGastos, budgets.gastosMensual, ejecutadoGastosPct⟩,
   ⟨"Gastos Administrativos", g.gastosAdmin, 0, 0⟩,
   ⟨"Gastos Otros", g.gastosOtros, 0, 0⟩,
   ⟨"Costos de Venta", g.costosVenta, 0, 0⟩,
   ⟨"Costos de Producción", g.costosProd, 0, 0⟩]

/-! ## Financial ratios (processing._calculate_financial_ratios) -/

/-- Python `round(x, 2)` modelled over `ℚ`: banker's rounding (round half
to even) at two decimal places. -/
def roundHalfEven (x : ℚ) : ℤ :=
  let f := ⌊x⌋
  let frac := x - f
  if frac < 1 / 2 then f
  else if frac > 1 / 2 then f + 1
  else if f % 2 = 0 then f else f + 1

def roundTo2 (x : ℚ) : ℚ := (roundHalfEven (x * 100) : ℚ) / 100

/-- `processing._calculate_financial_ratios`: every denominator is guarded
by `> 0` and every entry is rounded to two decimals. -/
def calculateFinancialRatios (currentAssets currentLiabilities inventories equity
    ingresos costos utilidad : ℚ) : List (String × ℚ) :=
  let currentRat := if currentLiabilities > 0 then currentAssets / currentLiabilities else 0
  let quickRat :=
    if currentLiabilities > 0 then (currentAssets - inventories) / currentLiabilities else 0
  let margenBruto := if ingresos > 0 then (ingresos - costos) / ingresos * 100 else 0
  let margenNeto := if ingresos > 0 then utilidad / ingresos * 100 else 0
  let roe := if equity > 0 then utilidad / equity * 100 else 0
  let deudaPatrim := if equity > 0 then currentLiabilities / equity else 0
  let rotacionInventarios := if inventories > 0 then costos / inventories else 0
  [("Current Ratio", roundTo2 currentRat),
   ("Quick Ratio", roundTo2 quickRat),
   ("Margen Bruto %", roundTo2 margenBruto),
   ("Margen Neto %", roundTo2 margenNeto),
   ("ROE %", roundTo2 roe),
   ("Deuda/Patrimonio", roundTo2 deudaPatrim),
   ("Rotación Inventarios", roundTo2 rotacionInventarios)]

/-! ## Balance-equation validator (validators.validate_balance_equation) -/

/-- One row of the balance frame, restricted to the three columns the
validator reads. -/
structure BalanceRow where
  nivel : String
  codigo : String
  saldoFinal : ℚ

/-- The balance frame together with its column labels: the validator's
`try` block raises `KeyError` when an expected column is absent. -/
structure BalanceFrame where
  cols : List String
  rows : List BalanceRow

/-- `balance_df[(Nivel == "Clase") & (Código == code)]["Saldo final"].sum()`. -/
def classSum (f : BalanceFrame) (code : String) : ℚ :=
  ((f.rows.filter (fun r => r.nivel == "Clase" && r.codigo == code)).map
    BalanceRow.saldoFinal).sum

def balanceColsPresent (f : BalanceFrame) : Bool :=
  f.cols.contains "Nivel" && f.cols.contains "Código cuenta contable" &&
    f.cols.contains "Saldo final"

/-- The body of the validator's `try` block; `Except.error` models the
`KeyError` raised on a missing column. -/
def validateBalanceInner (f : BalanceFrame) : Except String Bool :=
  if balanceColsPresent f then
    let assets := classSum f "1"
    let liabilities := |classSum f "2"|
    let equity := |classSum f "3"|
    Except.ok (decide (|assets - (liabilities + equity)| < 1))
  else
    Except.error "KeyError"

/-- `validators.validate_balance_equation`: the `except` handler turns any
raised exception into `False`. -/
def validateBalanceEquation (f : BalanceFrame) : Bool :=
  match validateBalanceInner f with
  | Except.ok b => b
  | Except.error _ => false

/-! ## Claim-specific comparison definitions and concrete inputs -/

/-- The token-resolution procedure exactly as the specification words it:
strip diacritics, uppercase, replace the *connective word* `de` (a
standalone whitespace-delimited token) with a space, split on whitespace,
first resolvable token wins.  Replacing a standalone token by a space and
re-splitting amounts to dropping that token.  This definition follows the
claim's words, for comparison against `resolveMonth`, which is translated
from the source. -/
def resolveMonthSpecWorded (label : String) : Option String :=
  let toks := ((splitWs (normalizeChars label.data)).map String.mk).filter
    (fun t => t != "DE")
  (toks.filter isAlphaTok).findSome? aliasToMonth

/-- The spec scenario ledger: an administrative-salary row and a
sales-cost row, amounts carried with the source's negative expense sign. -/
def scenarioRows : List EriRow :=
  [⟨"510101", "SUELDOS ADMINISTRATIVOS", -50000000⟩,
   ⟨"610101", "COSTO VENTAS", -30000000⟩]

def balanceCols : List String := ["Nivel", "Código cuenta contable", "Saldo final"]

/-- assets 1000, liabilities 600, equity 400: difference 0. -/
def balancedFrame : BalanceFrame :=
  ⟨balanceCols, [⟨"Clase", "1", 1000⟩, ⟨"Clase", "2", 600⟩, ⟨"Clase", "3", 400⟩]⟩

/-- assets 1000, liabilities 600, equity 300: difference 100. -/
def unbalancedFrame : BalanceFrame :=
  ⟨balanceCols, [⟨"Clase", "1", 1000⟩, ⟨"Clase", "2", 600⟩, ⟨"Clase", "3", 300⟩]⟩

/-- assets 1000, liabilities 600, equity 399.5: difference 0.5. -/
def roundingFrame : BalanceFrame :=
  ⟨balanceCols, [⟨"Clase", "1", 1000⟩, ⟨"Clase", "2", 600⟩, ⟨"Clase", "3", 399.5⟩]⟩

/-- assets 1000, liabilities 600, equity 399: difference exactly 1.0. -/
def boundaryFrame : BalanceFrame :=
  ⟨balanceCols, [⟨"Clase", "1", 1000⟩, ⟨"Clase", "2", 600⟩, ⟨"Clase", "3", 399⟩]⟩

/-- A frame lacking the code and balance columns. -/
def missingColsFrame : BalanceFrame := ⟨["Nivel"], [⟨"Clase", "1", 5⟩]⟩

/-- An ERI frame that reaches the data-row fallback of the column
selection: the only detected month column is `ENERO` and the current month
is `FEBRERO`, with one data row present. -/
def fallbackEri : EriRaw :=
  ⟨["Codigo", "Nombre", "ENERO", "Observaciones"],
   [["4135", "VENTAS", "100", "x"]]⟩

/-- An ERI frame whose third column mentions the current month in its
first data row (the situation the fallback scan was written for). -/
def scanEri : EriRaw :=
  ⟨["Codigo", "Nombre", "Columna3", "Observaciones"],
   [["a", "b", "TOTAL FEBRERO", "x"], ["4135", "VENTAS", "100", "y"]]⟩

end Cfobot

section SanityChecks

example : Cfobot.resolveMonth "FEB" = some "FEBRERO" := by decide
example : Cfobot.resolveMonth "Febrero" = some "FEBRERO" := by decide
example : Cfobot.resolveMonth "FEBRERO DE 2025" = some "FEBRERO" := by decide
example : Cfobot.resolveMonth "MARDE" = some "MARZO" := by decide
example : Cfobot.resolveMonth "reporte_sin_mes.xls" = none := by decide
example : Cfobot.resolveMonth "INFORME DE MARZO APRU- 2025 .xls" = some "MARZO" := by decide

example : Cfobot.detectCurrentMonth "INFORME DE MARZO APRU- 2025 .xls" none
    Cfobot.MONTH_ORDER "MARCH" = Except.ok "FEBRERO" := rfl

example : Cfobot.detectCurrentMonth "INFORME DE MARZO APRU- 2025 .xls" none
    Cfobot.MONTH_ORDER "APRIL" = Except.ok "MARZO" := rfl

example : Cfobot.detectCurrentMonth "INFORME DE ENERO APRU- 2025 .xls" none
    Cfobot.MONTH_ORDER "JANUARY" = Except.ok "DICIEMBRE" := rfl

example : Cfobot.detectCurrentMonth "reporte_sin_mes.xls"
    (some ⟨["BALANCE SEPTIEMBRE", "BALANCE OCTUBRE"], none⟩)
    Cfobot.MONTH_ORDER "MARCH" = Except.ok "OCTUBRE" := rfl

example : Cfobot.detectCurrentMonth "reporte_sin_mes.xls"
    (some ⟨["INFORME-ERI", "CARATULA"], some [[some "x", some "corte a JUNIO"], [none]]⟩)
    Cfobot.MONTH_ORDER "MARCH" = Except.ok "JUNIO" := rfl

example : Cfobot.detectCurrentMonth "reporte_sin_mes.xls"
    (some ⟨["INFORME-ERI", "CARATULA"], none⟩)
    Cfobot.MONTH_ORDER "MARCH" =
    Except.error "Could not determine report month from filename or workbook" := rfl

end SanityChecks

namespace Cfobot

/-! ## Shared lemmas -/

lemma roundTo2_zero : roundTo2 0 = 0 := by
  norm_num [roundTo2, roundHalfEven]

lemma roundTo2_ite (c : Prop) [Decidable c] (x : ℚ) :
    roundTo2 (if c then x else 0) = if c then roundTo2 x else 0 := by
  split <;> simp [roundTo2_zero]

lemma validateBalanceEquation_eval (f : BalanceFrame)
    (hc : balanceColsPresent f = true) :
    validateBalanceEquation f =
      decide (|classSum f "1" - (|classSum f "2"| + |classSum f "3"|)| < 1) := by
  unfold validateBalanceEquation validateBalanceInner
  rw [if_pos hc]

/-! ## Claim C1: zero-division guards in ratios and budget percentages -/

/-- Claim C1: each of the seven financial ratios evaluates to exactly `0`
whenever its denominator (current liabilities, income, equity or
inventories respectively) is not positive, and to the two-decimal rounding
of its formula otherwise; the two budget-execution rows carry a percentage
that is `0` whenever the configured budget is not positive.  All nine
computations are total functions over `ℚ`, so none can raise or produce a
NaN/infinite value. -/
theorem ratio_and_budget_zero_guards
    (ca cl inv eqv ing cst ut aIng aGas : ℚ) (b : Budgets) (g : GastosValues) :
    ((calculateFinancialRatios ca cl inv eqv ing cst ut).lookup "Current Ratio" =
      some (if cl > 0 then roundTo2 (ca / cl) else 0)) ∧
    ((calculateFinancialRatios ca cl inv eqv ing cst ut).lookup "Quick Ratio" =
      some (if cl > 0 then roundTo2 ((ca - inv) / cl) else 0)) ∧
    ((calculateFinancialRatios ca cl inv eqv ing cst ut).lookup "Margen Bruto %" =
      some (if ing > 0 then roundTo2 ((ing - cst) / ing * 100) else 0)) ∧
    ((calculateFinancialRatios ca cl inv eqv ing cst ut).lookup "Margen Neto %" =
      some (if ing > 0 then roundTo2 (ut / ing * 100) else 0)) ∧
    ((calculateFinancialRatios ca cl inv eqv ing cst ut).lookup "ROE %" =
      some (if eqv > 0 then roundTo2 (ut / eqv * 100) else 0)) ∧
    ((calculateFinancialRatios ca cl inv eqv ing cst ut).lookup "Deuda/Patrimonio" =
      some (if eqv > 0 then roundTo2 (cl / eqv) else 0)) ∧
    ((calculateFinancialRatios ca cl inv eqv ing cst ut).lookup "Rotación Inventarios" =
      some (if inv > 0 then roundTo2 (cst / inv) else 0)) ∧
    ((buildBudgetSummary b aIng aGas g).get? 0 =
      some ⟨"Ingresos", aIng, b.ingresosMensual,
        if b.ingresosMensual > 0 then aIng / b.ingresosMensual * 100 else 0⟩) ∧
    ((buildBudgetSummary b aIng aGas g).get? 1 =
      some ⟨"Gastos Totales", aGas, b.gastosMensual,
        if b.gastosMensual > 0 then aGas / b.gastosMensual * 100 else 0⟩) := by
  refine ⟨?_, ?_, ?_, ?_, ?_, ?_, ?_, rfl, rfl⟩
  · have h : (calculateFinancialRatios ca cl inv eqv ing cst ut).lookup "Current Ratio" =
        some (roundTo2 (if cl > 0 then ca / cl else 0)) := rfl
    rw [h, roundTo2_ite]
  · have h : (calculateFinancialRatios ca cl inv eqv ing cst ut).lookup "Quick Ratio" =
        some (roundTo2 (if cl > 0 then (ca - inv) / cl else 0)) := rfl
    rw [h, roundTo2_ite]
  · have h : (calculateFinancialRatios ca cl inv eqv ing cst ut).lookup "Margen Bruto %" =
        some (roundTo2 (if ing > 0 then (ing - cst) / ing * 100 else 0)) := rfl
    rw [h, roundTo2_ite]
  · have h : (calculateFinancialRatios ca cl inv eqv ing cst ut).lookup "Margen Neto %" =
        some (roundTo2 (if ing > 0 then ut / ing * 100 else 0)) := rfl
    rw [h, roundTo2_ite]
  · have h : (calculateFinancialRatios ca cl inv eqv ing cst ut).lookup "ROE %" =
        some (roundTo2 (if eqv > 0 then ut / eqv * 100 else 0)) := rfl
    rw [h, roundTo2_ite]
  · have h : (calculateFinancialRatios ca cl inv eqv ing cst ut).lookup "Deuda/Patrimonio" =
        some (roundTo2 (if eqv > 0 then cl / eqv else 0)) := rfl
    rw [h, roundTo2_ite]
  · have h : (calculateFinancialRatios ca cl inv eqv ing cst ut).lookup "Rotación Inventarios" =
        some (roundTo2 (if inv > 0 then cst / inv else 0)) := rfl
    rw [h, roundTo2_ite]

/-! ## Claim C3: expense partition -/

/-- Claim C3: for any ledger on which the four primary account-code masks
are mutually exclusive, the `Gastos Totales` row of the budget summary
reports exactly the sum of the four primary bucket totals, and the salary
and severance sub-categories select subsets of the administrative bucket
(they are not part of the reported total). -/
theorem expense_partition_total (rows : List EriRow) (b : Budgets) (ing : ℚ)
    (_hexcl : ∀ r ∈ rows,
      ([maskAdmin r, maskOther r, maskSales r, maskProd r].count true) ≤ 1) :
    ((buildBudgetSummary b ing (actualTotalGastos rows) (categorizeBase rows)).get? 1 =
      some ⟨"Gastos Totales",
        bucketTotal rows maskAdmin + bucketTotal rows maskOther +
          bucketTotal rows maskSales + bucketTotal rows maskProd,
        b.gastosMensual,
        if b.gastosMensual > 0 then actualTotalGastos rows / b.gastosMensual * 100
        else 0⟩) ∧
    (∀ r ∈ rows, maskSueldos r = true → maskAdmin r = true) ∧
    (∀ r ∈ rows, maskCesantias r = true → maskAdmin r = true) := by
  refine ⟨rfl, ?_, ?_⟩
  · intro r _ h
    simp only [maskSueldos, Bool.and_eq_true] at h
    exact h.1
  · intro r _ h
    simp only [maskCesantias, Bool.and_eq_true] at h
    exact h.1

/-- Witness for C3 at the specification's own scenario ledger. -/
theorem expense_partition_total_witness :
    (buildBudgetSummary ⟨100000000, 125000000⟩ 120000000
        (actualTotalGastos scenarioRows) (categorizeBase scenarioRows)).get? 1 =
      some ⟨"Gastos Totales",
        bucketTotal scenarioRows maskAdmin + bucketTotal scenarioRows maskOther +
          bucketTotal scenarioRows maskSales + bucketTotal scenarioRows maskProd,
        125000000,
        if (125000000 : ℚ) > 0 then actualTotalGastos scenarioRows / 125000000 * 100
        else 0⟩ :=
  (expense_partition_total scenarioRows ⟨100000000, 125000000⟩ 120000000 (by decide)).1

/-! ## Claim C7: balance-equation tolerance -/

/-- Counterexample to claim C7 as stated: at a difference of exactly
`1.0` (assets `1000`, liabilities `600`, equity `399`) the validator
returns `false`, although the claimed acceptance region "difference at
most 1.0" contains this input. -/
theorem balance_tolerance_boundary :
    validateBalanceEquation boundaryFrame = false ∧
    |classSum boundaryFrame "1" -
      (|classSum boundaryFrame "2"| + |classSum boundaryFrame "3"|)| ≤ 1 := by
  constructor
  · show decide (|List.sum [(1000 : ℚ)] -
      (|List.sum [(600 : ℚ)]| + |List.sum [(399 : ℚ)]|)| < 1) = false
    norm_num [List.sum_cons, List.sum_nil]
  · show |List.sum [(1000 : ℚ)] -
      (|List.sum [(600 : ℚ)]| + |List.sum [(399 : ℚ)]|)| ≤ 1
    norm_num [List.sum_cons, List.sum_nil]

/-- Claim C7 (amended): with the three expected columns present, the
validator accepts exactly when the absolute difference between the asset
class total and the sum of the absolute liability and equity class totals
is strictly less than `1.0`; the spec's three concrete cases behave as
claimed, and a violation only yields `false`, never an exception. -/
theorem balance_equation_tolerance (f : BalanceFrame)
    (hc : balanceColsPresent f = true) :
    (validateBalanceEquation f = true ↔
      |classSum f "1" - (|classSum f "2"| + |classSum f "3"|)| < 1) ∧
    validateBalanceEquation balancedFrame = true ∧
    validateBalanceEquation unbalancedFrame = false ∧
    validateBalanceEquation roundingFrame = true := by
  refine ⟨?_, ?_, ?_, ?_⟩
  · rw [validateBalanceEquation_eval f hc]
    exact decide_eq_true_iff
  · show decide (|List.sum [(1000 : ℚ)] -
      (|List.sum [(600 : ℚ)]| + |List.sum [(400 : ℚ)]|)| < 1) = true
    norm_num [List.sum_cons, List.sum_nil]
  · show decide (|List.sum [(1000 : ℚ)] -
      (|List.sum [(600 : ℚ)]| + |List.sum [(300 : ℚ)]|)| < 1) = false
    norm_num [List.sum_cons, List.sum_nil]
  · show decide (|List.sum [(1000 : ℚ)] -
      (|List.sum [(600 : ℚ)]| + |List.sum [(399.5 : ℚ)]|)| < 1) = true
    have h : |(799 : ℚ) / 2| = 799 / 2 := abs_of_nonneg (by norm_num)
    have h2 : |(1 : ℚ) / 2| = 1 / 2 := abs_of_nonneg (by norm_num)
    norm_num [List.sum_cons, List.sum_nil, h, h2]

/-- Witness for C7 (amended) at the balanced example frame. -/
theorem balance_equation_tolerance_witness :
    balanceColsPresent balancedFrame = true ∧
    (validateBalanceEquation balancedFrame = true ↔
      |classSum balancedFrame "1" -
        (|classSum balancedFrame "2"| + |classSum balancedFrame "3"|)| < 1) :=
  ⟨rfl, (balance_equation_tolerance balancedFrame rfl).1⟩

/-! ## Claim C10: totality of the balance validator -/

/-- Claim C10: the balance validator always returns a boolean; when the
expected columns are absent (the `KeyError` path), or whenever its inner
computation raises, it returns `false` instead of propagating the
exception. -/
theorem balance_validator_total (f : BalanceFrame) :
    (validateBalanceEquation f = true ∨ validateBalanceEquation f = false) ∧
    (balanceColsPresent f = false → validateBalanceEquation f = false) ∧
    (∀ e, validateBalanceInner f = Except.error e → validateBalanceEquation f = false) := by
  refine ⟨Bool.eq_false_or_eq_true (validateBalanceEquation f), ?_, ?_⟩
  · intro h
    unfold validateBalanceEquation validateBalanceInner
    rw [if_neg (by simp [h])]
  · intro e he
    unfold validateBalanceEquation
    rw [he]

/-- Witness for C10 at a frame lacking the code and balance columns. -/
theorem balance_validator_total_witness :
    validateBalanceEquation missingColsFrame = false ∧
    (validateBalanceEquation balancedFrame = true ∨
      validateBalanceEquation balancedFrame = false) :=
  ⟨(balance_validator_total missingColsFrame).2.1 rfl,
   (balance_validator_total balancedFrame).1⟩

/-! ## Claim C5: month token resolution -/

lemma stripAccent_upper_stripAccent (c : Char) :
    stripAccentChar (upperChar (stripAccentChar c)) = stripAccentChar (upperChar c) := by
  by_cases h1 : c = 'Á'
  · subst h1; rfl
  by_cases h2 : c = 'É'
  · subst h2; rfl
  by_cases h3 : c = 'Í'
  · subst h3; rfl
  by_cases h4 : c = 'Ó'
  · subst h4; rfl
  by_cases h5 : c = 'Ú'
  · subst h5; rfl
  by_cases h6 : c = 'Ü'
  · subst h6; rfl
  by_cases h7 : c = 'Ñ'
  · subst h7; rfl
  by_cases h8 : c = 'á'
  · subst h8; rfl
  by_cases h9 : c = 'é'
  · subst h9; rfl
  by_cases h10 : c = 'í'
  · subst h10; rfl
  by_cases h11 : c = 'ó'
  · subst h11; rfl
  by_cases h12 : c = 'ú'
  · subst h12; rfl
  by_cases h13 : c = 'ü'
  · subst h13; rfl
  by_cases h14 : c = 'ñ'
  · subst h14; rfl
  have hs : stripAccentChar c = c := by
    unfold stripAccentChar
    split <;> simp_all
  rw [hs]

lemma normalizeChars_map_stripAccent (l : List Char) :
    normalizeChars (l.map stripAccentChar) = normalizeChars l := by
  induction l with
  | nil => rfl
  | cons c t ih =>
    simp only [normalizeChars, List.map_cons] at ih ⊢
    exact congrArg₂ List.cons (stripAccent_upper_stripAccent c) ih

/-- Accent invariance: resolving an accent-stripped label gives the same
result as resolving the label itself. -/
lemma resolveMonth_stripAccents (label : String) :
    resolveMonth (stripAccents label) = resolveMonth label := by
  unfold resolveMonth extractMonthTokens stripAccents
  rw [show (String.mk (label.data.map stripAccentChar)).data =
    label.data.map stripAccentChar from rfl]
  rw [normalizeChars_map_stripAccent]

/-- Counterexample to claim C5 as stated: the source replaces every
occurrence of the substring `DE`, not only the standalone connective word;
on the label `MARDE` the code resolves `MARZO` (from the remnant token
`MAR`), while the procedure the claim describes resolves nothing. -/
theorem resolve_month_connective_divergence :
    resolveMonth "MARDE" = some "MARZO" ∧ resolveMonthSpecWorded "MARDE" = none :=
  ⟨rfl, rfl⟩

/-- Claim C5 (amended): `FEB`, `Febrero` and `FEBRERO DE 2025` all resolve
to `FEBRERO`; resolution strips diacritics, uppercases, replaces every
occurrence of the substring `DE` (even inside a word) with a space, splits
on whitespace, keeps the alphabetic tokens and returns the canonical month
of the first token matching a canonical name or known abbreviation;
accent-bearing labels resolve identically to their unaccented forms. -/
theorem resolve_month_normalization (label : String) :
    resolveMonth "FEB" = some "FEBRERO" ∧
    resolveMonth "Febrero" = some "FEBRERO" ∧
    resolveMonth "FEBRERO DE 2025" = some "FEBRERO" ∧
    extractMonthTokens label =
      ((splitWs (replaceDE (normalizeChars label.data))).map String.mk).filter isAlphaTok ∧
    resolveMonth label = (extractMonthTokens label).findSome? aliasToMonth ∧
    resolveMonth (stripAccents label) = resolveMonth label :=
  ⟨rfl, rfl, rfl, rfl, rfl, resolveMonth_stripAccents label⟩

/-! ## Claim C2: current-vs-previous-month rule -/

lemma exists_indexOf?_of_mem {l : List String} {a : String} (h : a ∈ l) :
    ∃ i, l.indexOf? a = some i ∧ i < l.length := by
  have hex : ∃ x, x ∈ l ∧ (x == a) = true := ⟨a, h, by simp⟩
  refine ⟨l.findIdx (· == a), ?_, ?_⟩
  · show l.findIdx? (· == a) = some (l.findIdx (· == a))
    exact List.findIdx?_eq_some_of_exists hex
  · exact List.findIdx_lt_length_of_exists hex

lemma previousMonth_isSome {m : String} {order : List String} (h : m ∈ order) :
    ∃ p, previousMonth m order = some p := by
  obtain ⟨i, hi, hlt⟩ := exists_indexOf?_of_mem h
  unfold previousMonth
  rw [hi]
  dsimp only
  by_cases h0 : i > 0
  · rw [if_pos h0]
    have hl : i - 1 < order.length := lt_of_le_of_lt (Nat.sub_le i 1) hlt
    exact ⟨order[i - 1], List.getElem?_eq_getElem hl⟩
  · rw [if_neg h0]
    have hne : order ≠ [] := by rintro rfl; simp at h
    exact Option.isSome_iff_exists.mp (List.getLast?_isSome.mpr hne)

/-- Claim C2: when the detected month `m` lies in the configured order and
equals the system month translated into Spanish, `detect_current_month`
returns the month immediately preceding `m` in the order (last month of
the order when `m` sits at index 0); otherwise it returns `m` unchanged. -/
theorem detect_current_month_previous_rule (fileName : String) (wb : Option Workbook)
    (monthOrder : List String) (systemMonthEn : String) (m : String)
    (hdet : detectEvidence fileName wb monthOrder = some m) (hm : m ∈ monthOrder) :
    (m = toSpanish systemMonthEn →
      ∃ p, previousMonth m monthOrder = some p ∧
        detectCurrentMonth fileName wb monthOrder systemMonthEn = Except.ok p) ∧
    (m ≠ toSpanish systemMonthEn →
      detectCurrentMonth fileName wb monthOrder systemMonthEn = Except.ok m) ∧
    (∀ i, monthOrder.indexOf? m = some i →
      previousMonth m monthOrder =
        if i = 0 then monthOrder.getLast? else monthOrder[i - 1]?) := by
  refine ⟨?_, ?_, ?_⟩
  · intro heq
    obtain ⟨p, hp⟩ := previousMonth_isSome hm
    refine ⟨p, hp, ?_⟩
    unfold detectCurrentMonth
    rw [hdet]
    dsimp only
    rw [if_pos (beq_iff_eq.mpr heq), hp]
  · intro hne
    unfold detectCurrentMonth
    rw [hdet]
    dsimp only
    rw [if_neg (by simp [beq_eq_false_iff_ne.mpr hne])]
  · intro i hi
    unfold previousMonth
    rw [hi]
    dsimp only
    rcases Nat.eq_zero_or_pos i with h0 | h0
    · subst h0
      simp
    · rw [if_pos h0, if_neg (Nat.pos_iff_ne_zero.mp h0)]

/-- Witness for C2: a January filename with the system clock in January
yields December, the last month of the order. -/
theorem detect_current_month_previous_rule_witness :
    detectEvidence "INFORME DE ENERO APRU- 2025 .xls" none MONTH_ORDER = some "ENERO" ∧
    "ENERO" ∈ MONTH_ORDER ∧
    ∃ p, previousMonth "ENERO" MONTH_ORDER = some p ∧
      detectCurrentMonth "INFORME DE ENERO APRU- 2025 .xls" none MONTH_ORDER "JANUARY" =
        Except.ok p := by
  refine ⟨rfl, by decide, ?_⟩
  exact (detect_current_month_previous_rule "INFORME DE ENERO APRU- 2025 .xls" none
    MONTH_ORDER "JANUARY" "ENERO" rfl (by decide)).1 rfl

/-! ## Claim C9: determinism of month resolution -/

/-- Counterexample to claim C9 as stated: with filename, sheet names and
cover sheet held fixed, the result still changes with the system clock,
because `detect_current_month` reads `datetime.now()`: the same March
workbook resolves to February when run in March and to March when run in
April. -/
theorem detect_month_clock_dependence :
    detectCurrentMonth "INFORME DE MARZO APRU- 2025 .xls" none MONTH_ORDER "MARCH" ≠
      detectCurrentMonth "INFORME DE MARZO APRU- 2025 .xls" none MONTH_ORDER "APRIL" := by
  intro hcontra
  have h1 : detectCurrentMonth "INFORME DE MARZO APRU- 2025 .xls" none MONTH_ORDER
      "MARCH" = Except.ok "FEBRERO" := rfl
  have h2 : detectCurrentMonth "INFORME DE MARZO APRU- 2025 .xls" none MONTH_ORDER
      "APRIL" = Except.ok "MARZO" := rfl
  rw [h1, h2] at hcontra
  exact absurd (Except.ok.inj hcontra) (by decide)

/-- Claim C9 (amended): month resolution is a pure function of the
evidence sources *and* the system-clock month: any two runs that agree on
the gathered evidence and on the translated system month return the same
result, whatever the raw filename, sheet names and cover sheet were. -/
theorem detect_month_deterministic (f1 f2 : String) (wb1 wb2 : Option Workbook)
    (monthOrder : List String) (s1 s2 : String)
    (hev : detectEvidence f1 wb1 monthOrder = detectEvidence f2 wb2 monthOrder)
    (hsys : toSpanish s1 = toSpanish s2) :
    detectCurrentMonth f1 wb1 monthOrder s1 = detectCurrentMonth f2 wb2 monthOrder s2 := by
  unfold detectCurrentMonth
  rw [hev, hsys]

/-- Witness for C9 (amended): two different raw inputs carrying the same
evidence (a March filename versus a March balance-sheet name) produce the
same result for the same clock month. -/
theorem detect_month_deterministic_witness :
    detectCurrentMonth "INFORME DE MARZO APRU- 2025 .xls" none MONTH_ORDER "MARCH" =
      detectCurrentMonth "reporte_sin_mes.xls" (some ⟨["BALANCE MARZO"], none⟩)
        MONTH_ORDER "MARCH" :=
  detect_month_deterministic "INFORME DE MARZO APRU- 2025 .xls" "reporte_sin_mes.xls"
    none (some ⟨["BALANCE MARZO"], none⟩) MONTH_ORDER "MARCH" "MARCH" rfl rfl

/-! ## Claim C4: month-detection precedence -/

/-- Claim C4: the evidence sources are consulted in a fixed order with the
first success winning — (1) the filename; (2) only if that fails and a
workbook is available, the sheet names, yielding the chronologically
latest of the resolved months that lie in the configured order; (3) only
if that also fails, the cover-sheet cell scan; when everything fails,
`detect_current_month` raises a data error instead of defaulting. -/
theorem month_detection_precedence (fileName : String) (w : Workbook)
    (monthOrder : List String) (systemMonthEn : String) :
    (∀ m, resolveMonth fileName = some m →
      detectEvidence fileName (some w) monthOrder = some m) ∧
    (resolveMonth fileName = none → ∀ m,
      detectMonthFromSheetNames w.sheetNames monthOrder = some m →
      detectEvidence fileName (some w) monthOrder = some m) ∧
    (resolveMonth fileName = none →
      detectMonthFromSheetNames w.sheetNames monthOrder = none →
      detectEvidence fileName (some w) monthOrder =
        detectMonthFromCaratula w monthOrder) ∧
    (detectMonthFromSheetNames w.sheetNames monthOrder =
      (monthOrder.filter (fun m =>
        w.sheetNames.any (fun s => resolveMonth s == some m))).getLast?) ∧
    (detectEvidence fileName (some w) monthOrder = none →
      detectCurrentMonth fileName (some w) monthOrder systemMonthEn =
        Except.error "Could not determine report month from filename or workbook") := by
  refine ⟨?_, ?_, ?_, ?_, ?_⟩
  · intro m hm
    unfold detectEvidence
    rw [hm]
  · intro hf m hs
    unfold detectEvidence
    rw [hf]
    dsimp only
    rw [hs]
  · intro hf hs
    unfold detectEvidence
    rw [hf]
    dsimp only
    rw [hs]
  · unfold detectMonthFromSheetNames
    refine congrArg List.getLast? (List.filter_congr ?_)
    intro m hmem
    rw [Bool.eq_iff_iff]
    constructor
    · intro hcont
      obtain ⟨m2, hm2mem, hbeq⟩ := List.contains_iff_exists_mem_beq.mp hcont
      obtain rfl : m = m2 := eq_of_beq hbeq
      obtain ⟨s, hsmem, hfs⟩ := List.mem_filterMap.mp hm2mem
      refine List.any_eq_true.mpr ⟨s, hsmem, ?_⟩
      cases hr : resolveMonth s with
      | none => rw [hr] at hfs; exact absurd hfs (by simp)
      | some m3 =>
        rw [hr] at hfs
        dsimp only at hfs
        by_cases hc : monthOrder.contains m3 = true
        · rw [if_pos hc] at hfs
          obtain rfl : m3 = m := Option.some.inj hfs
          simp
        · rw [if_neg hc] at hfs
          exact absurd hfs (by simp)
    · intro hany
      obtain ⟨s, hsmem, hbeq⟩ := List.any_eq_true.mp hany
      have hr : resolveMonth s = some m := eq_of_beq hbeq
      have hc : monthOrder.contains m = true :=
        List.contains_iff_exists_mem_beq.mpr ⟨m, hmem, by simp⟩
      have hfs : (match resolveMonth s with
          | some mm => if monthOrder.contains mm then some mm else none
          | none => none) = some m := by
        rw [hr]
        dsimp only
        rw [if_pos hc]
      refine List.contains_iff_exists_mem_beq.mpr ⟨m, ?_, by simp⟩
      exact List.mem_filterMap.mpr ⟨s, hsmem, hfs⟩
  · intro hnone
    unfold detectCurrentMonth
    rw [hnone]

/-- Witness for C4: the filename wins when it resolves; an unresolvable
filename falls back to the latest sheet-name month; with every source
failing the run aborts with the data error. -/
theorem month_detection_precedence_witness :
    detectEvidence "INFORME DE MARZO APRU- 2025 .xls"
      (some ⟨["BALANCE ENERO"], none⟩) MONTH_ORDER = some "MARZO" ∧
    detectEvidence "reporte_sin_mes.xls"
      (some ⟨["BALANCE SEPTIEMBRE", "BALANCE OCTUBRE"], none⟩) MONTH_ORDER =
      some "OCTUBRE" ∧
    detectCurrentMonth "reporte_sin_mes.xls" (some ⟨["INFORME-ERI", "CARATULA"], none⟩)
      MONTH_ORDER "MARCH" =
      Except.error "Could not determine report month from filename or workbook" := by
  refine ⟨?_, ?_, ?_⟩
  · exact (month_detection_precedence "INFORME DE MARZO APRU- 2025 .xls"
      ⟨["BALANCE ENERO"], none⟩ MONTH_ORDER "MARCH").1 "MARZO" rfl
  · exact (month_detection_precedence "reporte_sin_mes.xls"
      ⟨["BALANCE SEPTIEMBRE", "BALANCE OCTUBRE"], none⟩ MONTH_ORDER "MARCH").2.1
      rfl "OCTUBRE" rfl
  · exact (month_detection_precedence "reporte_sin_mes.xls"
      ⟨["INFORME-ERI", "CARATULA"], none⟩ MONTH_ORDER "MARCH").2.2.2.2 rfl

/-! ## Claim C6: ledger current-month column selection -/

/-- Claim C6 (code bug): the selection does prefer a detected month column
whose header resolves to the current month, but when that step fails on a
frame with at least one data row, the source raises a `ValueError` — the
fallback loop indexes `df_eri.iloc[row_idx, col]` with `col` a column
*label*, and `.iloc` is purely positional — instead of scanning the first
three data rows as the claim (and the code's own comment) describes.  The
intended selection, embedded separately, scans and falls back as claimed. -/
theorem eri_column_selection_bug :
    pickCurrentMonthCol fallbackEri ["ENERO"] "FEBRERO" =
      Except.error "Location based indexing can only have integer indexers" ∧
    pickCurrentMonthColIntended fallbackEri ["ENERO"] "FEBRERO" = Except.ok "ENERO" ∧
    pickCurrentMonthCol scanEri ["Columna3"] "FEBRERO" =
      Except.error "Location based indexing can only have integer indexers" ∧
    pickCurrentMonthColIntended scanEri ["Columna3"] "FEBRERO" = Except.ok "Columna3" ∧
    pickCurrentMonthCol fallbackEri ["ENERO"] "ENERO" = Except.ok "ENERO" :=
  ⟨rfl, rfl, rfl, rfl, rfl⟩

/-! ## Claim C8: structural-failure diagnostics -/

/-- Claim C8: before any sheet is read or normalized, loading checks the
three fixed sheets and a balance sheet for the current month; a missing
balance sheet aborts with a message naming the month and listing every
sheet actually present; missing fixed sheets abort with a message
enumerating exactly the missing names and listing every sheet present; a
fixed sheet that is absent always makes that missing list nonempty; when
everything is present the validation succeeds. -/
theorem required_sheet_diagnostics (sheetNames : List String) (currentMonth : String) :
    (findBalanceSheet sheetNames currentMonth = none →
      validateRequiredSheets sheetNames currentMonth =
        Except.error ("Could not find balance sheet for month " ++ squote ++
          currentMonth ++ squote ++ ". Available sheets: " ++ joinComma sheetNames)) ∧
    (∀ bs, findBalanceSheet sheetNames currentMonth = some bs →
      requiredFixedSheets.filter (fun s => !sheetNames.contains s) ≠ [] →
      validateRequiredSheets sheetNames currentMonth =
        Except.error ("Required sheets missing: " ++
          joinComma (requiredFixedSheets.filter (fun s => !sheetNames.contains s)) ++
          ". Available sheets: " ++ joinComma sheetNames)) ∧
    (∀ s ∈ requiredFixedSheets, ¬ s ∈ sheetNames →
      requiredFixedSheets.filter (fun x => !sheetNames.contains x) ≠ []) ∧
    (∀ bs, findBalanceSheet sheetNames currentMonth = some bs →
      (∀ s ∈ requiredFixedSheets, s ∈ sheetNames) →
      validateRequiredSheets sheetNames currentMonth = Except.ok bs) := by
  refine ⟨?_, ?_, ?_, ?_⟩
  · intro hnone
    unfold validateRequiredSheets
    rw [hnone]
  · intro bs hbs hmiss
    have hbsmem : bs ∈ sheetNames := List.mem_of_find?_eq_some hbs
    have hcont : sheetNames.contains bs = true :=
      List.contains_iff_exists_mem_beq.mpr ⟨bs, hbsmem, by simp⟩
    have hmeq : (requiredFixedSheets ++ [bs]).filter (fun s => !sheetNames.contains s) =
        requiredFixedSheets.filter (fun s => !sheetNames.contains s) := by
      rw [List.filter_append]
      simp [hbsmem]
    unfold validateRequiredSheets
    rw [hbs]
    dsimp only
    rw [hmeq, if_neg (fun hemp => hmiss (List.isEmpty_iff.mp hemp))]
  · intro s hsmem hsabs
    intro hnil
    have : s ∈ requiredFixedSheets.filter (fun x => !sheetNames.contains x) := by
      refine List.mem_filter.mpr ⟨hsmem, ?_⟩
      simp [hsabs]
    rw [hnil] at this
    simp at this
  · intro bs hbs hall
    have hbsmem : bs ∈ sheetNames := List.mem_of_find?_eq_some hbs
    have hnil : (requiredFixedSheets ++ [bs]).filter (fun s => !sheetNames.contains s) =
        [] := by
      refine List.filter_eq_nil_iff.mpr ?_
      intro x hx
      have hxmem : x ∈ sheetNames := by
        rcases List.mem_append.mp hx with hfix | hsingle
        · exact hall x hfix
        · rw [List.mem_singleton.mp hsingle]; exact hbsmem
      simp [hxmem]
    unfold validateRequiredSheets
    rw [hbs]
    dsimp only
    rw [hnil]
    rfl

/-- Witness for C8: a workbook with no January balance sheet aborts naming
the month and the present sheets; a workbook missing the ledger and income
statement aborts enumerating exactly those two names. -/
theorem required_sheet_diagnostics_witness :
    validateRequiredSheets ["CARATULA"] "ENERO" =
      Except.error ("Could not find balance sheet for month " ++ squote ++ "ENERO" ++
        squote ++ ". Available sheets: " ++ joinComma ["CARATULA"]) ∧
    validateRequiredSheets ["BALANCE ENERO", "CARATULA"] "ENERO" =
      Except.error ("Required sheets missing: " ++
        joinComma (requiredFixedSheets.filter
          (fun s => !(["BALANCE ENERO", "CARATULA"] : List String).contains s)) ++
        ". Available sheets: " ++ joinComma ["BALANCE ENERO", "CARATULA"]) ∧
    validateRequiredSheets ["INFORME-ERI", "ESTADO RESULTADO", "CARATULA", "BALANCE ENERO"]
      "ENERO" = Except.ok "BALANCE ENERO" := by
  refine ⟨?_, ?_, ?_⟩
  · exact (required_sheet_diagnostics ["CARATULA"] "ENERO").1 rfl
  · exact (required_sheet_diagnostics ["BALANCE ENERO", "CARATULA"] "ENERO").2.1
      "BALANCE ENERO" rfl (by decide)
  · exact (required_sheet_diagnostics
      ["INFORME-ERI", "ESTADO RESULTADO", "CARATULA", "BALANCE ENERO"] "ENERO").2.2.2
      "BALANCE ENERO" rfl (by decide)

end Cfobot
